import Mathlib

/-!
Verification development for the OpenSuperFin core runtime.

This file gives a shallow embedding, in Lean, of the components of the
OpenSuperFin trading-advisory server that the specification's claims are
about: the pydantic data models (`core/models/signals.py`,
`core/models/tasks.py`), the risk engine (`risk/engine.py`), the built-in
risk rules (`plugins/risk_rules/`), the signal delivery service
(`engine/signal_delivery.py`), the pending-confirmation watcher
(`engine/pending_confirmation.py`), the event bus (`core/bus.py`), the
store's file operations (`core/data/store.py`), the scheduler and its cron
matcher (`scheduler/runner.py`, `scheduler/cron.py`), the portfolio tracker
(`risk/portfolio.py`) and the confirm-trade tool of the AI interface
(`engine/interface.py`).

Conventions of the embedding:
* Python floats are embedded as rationals.
* `datetime` instants are embedded as non-negative epoch seconds.
* Fallible Python code is embedded with `Except`; a pydantic model's
  attribute assignment / read raises when the attribute is not a declared
  model field (pydantic v2 `BaseModel.__setattr__` / `__getattr__` with the
  default configuration), which the embedding makes explicit.
* Side effects (store writes, published events, opened positions) are
  returned as explicit effect lists.
-/

deriving instance DecidableEq for Except

namespace OSF

/-- Errors raised at the Python level by the embedded code. -/
inductive PyErr where
  | valueError (msg : String)
  | attributeError (msg : String)
  | zeroDivisionError (msg : String)
  deriving DecidableEq, Repr

/-- `RuleEvaluation` from `core/models/signals.py`: result of a single risk
rule evaluation. -/
structure RuleEvaluation where
  rule_name : String
  passed : Bool
  reason : String
  current_value : Option ℚ := none
  limit_value : Option ℚ := none
  deriving DecidableEq, Repr

/-- `RiskResult` from `core/models/signals.py`: aggregate result of all risk
rule evaluations. -/
structure RiskResult where
  approved : Bool
  evaluations : List RuleEvaluation := []
  deriving DecidableEq, Repr

/-- `Signal` from `core/models/signals.py`, with exactly the fields the
pydantic model there declares: `id`, `ticker`, `direction`, `catalyst`,
`confidence`, `entry_target`, `stop_loss`, `take_profit`, `horizon`,
`memo_id`, `created_at`, `correlation_id`, `status`, `risk_result`,
`delivered_at`, `delivered_via`.  (The model declares no
`confirmation_status`, `confirmation_due_at`,
`confirmation_reminder_sent_at` or `delivery_errors` fields.) -/
structure Signal where
  id : String
  ticker : String
  direction : String
  catalyst : String
  confidence : ℚ
  entry_target : Option ℚ := none
  stop_loss : Option ℚ := none
  take_profit : Option ℚ := none
  horizon : String := ""
  memo_id : String := ""
  created_at : Nat := 0
  correlation_id : String := ""
  status : String := "proposed"
  risk_result : Option RiskResult := none
  delivered_at : Option Nat := none
  delivered_via : Option String := none
  deriving DecidableEq, Repr

/-- The names of the fields the `Signal` pydantic model declares
(`core/models/signals.py`, lines 15-32). -/
def Signal.fieldNames : List String :=
  ["id", "ticker", "direction", "catalyst", "confidence", "entry_target",
   "stop_loss", "take_profit", "horizon", "memo_id", "created_at",
   "correlation_id", "status", "risk_result", "delivered_at",
   "delivered_via"]

/-- The attribute assignments that the risk engine, the delivery service and
the pending-confirmation watcher perform on a `Signal` object. -/
inductive SignalAttr where
  | status (v : String)
  | risk_result (v : RiskResult)
  | delivered_at (v : Option Nat)
  | delivered_via (v : Option String)
  | delivery_errors (v : Option (List String))
  | confirmation_status (v : String)
  | confirmation_due_at (v : Option Nat)
  | confirmation_reminder_sent_at (v : Option Nat)
  deriving DecidableEq, Repr

/-- The Python attribute name of a `SignalAttr`. -/
def SignalAttr.attrName : SignalAttr → String
  | .status _ => "status"
  | .risk_result _ => "risk_result"
  | .delivered_at _ => "delivered_at"
  | .delivered_via _ => "delivered_via"
  | .delivery_errors _ => "delivery_errors"
  | .confirmation_status _ => "confirmation_status"
  | .confirmation_due_at _ => "confirmation_due_at"
  | .confirmation_reminder_sent_at _ => "confirmation_reminder_sent_at"

/-- pydantic v2 `BaseModel.__setattr__` with the default model
configuration: assigning an attribute that is not a declared model field
raises `ValueError("... object has no field ...")`; assigning a declared
field updates it (no validation, since `validate_assignment` is off). -/
def Signal.setAttr (s : Signal) (a : SignalAttr) : Except PyErr Signal :=
  if Signal.fieldNames.contains a.attrName then
    pure (match a with
      | .status v => { s with status := v }
      | .risk_result v => { s with risk_result := some v }
      | .delivered_at v => { s with delivered_at := v }
      | .delivered_via v => { s with delivered_via := v }
      | _ => s)
  else
    .error (.valueError ("Signal object has no field " ++ a.attrName))

/-- pydantic v2 attribute read: reading an attribute that is not a declared
model field raises `AttributeError`. -/
def Signal.readAttr (_s : Signal) (name : String) : Except PyErr Unit :=
  if Signal.fieldNames.contains name then pure ()
  else .error (.attributeError ("Signal object has no attribute " ++ name))

/-- `Position` from `core/models/signals.py`: a tracked position in either
book.  The `portfolio` field of the source is embedded as `book` (its value
is the book name, "ai" or "human"). -/
structure Position where
  ticker : String
  direction : String
  size : Option ℚ := none
  entry_price : ℚ
  current_price : Option ℚ := none
  pnl : Option ℚ := none
  pnl_percent : Option ℚ := none
  status : String := "signaled"
  book : String
  signal_id : Option String := none
  opened_at : Nat := 0
  closed_at : Option Nat := none
  close_price : Option ℚ := none
  realized_pnl : Option ℚ := none
  realized_pnl_percent : Option ℚ := none
  confirmed_at : Option Nat := none
  confirmed_via : Option String := none
  user_notes : Option String := none
  deriving DecidableEq, Repr

/-- `PortfolioSummary` from `core/models/context.py` as built by
`PortfolioTracker.get_summary` (`risk/portfolio.py`, lines 28-46). -/
structure PortfolioSummary where
  portfolio_type : String
  total_value : ℚ
  positions : List Position
  total_pnl : ℚ := 0
  total_pnl_percent : ℚ := 0
  deriving DecidableEq, Repr

/-! ### Built-in risk rules (`plugins/risk_rules/`) -/

/-- Python `x or d` on an optional float: `None` and `0` are falsy. -/
def pyOr (v : Option ℚ) (d : ℚ) : ℚ :=
  match v with
  | none => d
  | some x => if x = 0 then d else x

/-- Python `x or d` on an optional string: `None` and `""` are falsy. -/
def pyOrS (v : Option String) (d : String) : String :=
  match v with
  | none => d
  | some x => if x = "" then d else x

/-- `ConfidenceRule.evaluate` from `plugins/risk_rules/confidence.py`,
lines 41-53: passes iff `signal.confidence >= min_confidence`.  The
formatted reason strings of the source are embedded as fixed strings. -/
def ConfidenceRule.evaluate (min_confidence : ℚ) (signal : Signal)
    (_portfolio : PortfolioSummary) : RuleEvaluation :=
  let passed := decide (signal.confidence ≥ min_confidence)
  { rule_name := "confidence"
    passed := passed
    reason := if passed then "Confidence meets minimum" else "Confidence below minimum"
    current_value := some signal.confidence
    limit_value := some min_confidence }

/-- The existing positions the concentration rule collects
(`plugins/risk_rules/concentration.py`, line 64): positions in the
signal's ticker whose status is neither `closed` nor `skipped`. -/
def existingPositions (signal : Signal) (pf : PortfolioSummary) : List Position :=
  pf.positions.filter
    (fun p => p.ticker = signal.ticker ∧ p.status ≠ "closed" ∧ p.status ≠ "skipped")

/-- The value of the collected positions
(`plugins/risk_rules/concentration.py`, lines 66-68): current price (or
entry price) times size (defaulting to 1), summed. -/
def existingValue (signal : Signal) (pf : PortfolioSummary) : ℚ :=
  ((existingPositions signal pf).map
    (fun p => (pyOr p.current_price p.entry_price) * (pyOr p.size 1))).sum

/-- `ConcentrationRule.evaluate` from `plugins/risk_rules/concentration.py`,
lines 55-87.  It passes vacuously when the portfolio has no positions or
non-positive total value; otherwise it collects the existing non-closed,
non-skipped positions in the signal's ticker and fails only when their
value as a fraction of total portfolio value is `>= max_single_position`.
The proposed signal itself is never sized into the check. -/
def ConcentrationRule.evaluate (max_single_position : ℚ) (signal : Signal)
    (pf : PortfolioSummary) : RuleEvaluation :=
  if pf.positions = [] ∨ pf.total_value ≤ 0 then
    { rule_name := "concentration", passed := true
      reason := "No existing positions -- concentration check passes" }
  else
    let existing := existingPositions signal pf
    if existing ≠ [] then
      let position_value := existingValue signal pf
      let position_pct := if pf.total_value ≠ 0 then position_value / pf.total_value else 0
      if position_pct ≥ max_single_position then
        { rule_name := "concentration", passed := false
          reason := "ticker already too large a share of portfolio"
          current_value := some position_pct
          limit_value := some max_single_position }
      else
        { rule_name := "concentration", passed := true
          reason := "Position concentration within limits" }
    else
      { rule_name := "concentration", passed := true
        reason := "Position concentration within limits" }

/-! ### Risk engine (`risk/engine.py`) -/

/-- A registered risk rule as the engine sees it: a name and an `evaluate`
function that may raise (`Except.error`). -/
structure RiskRule where
  name : String
  evaluate : Signal → PortfolioSummary → Except String RuleEvaluation

/-- The engine's per-rule loop body (`risk/engine.py`, lines 59-69): a rule
that raises is converted to a failed `RuleEvaluation`. -/
def evalRule (rule : RiskRule) (signal : Signal) (pf : PortfolioSummary) :
    RuleEvaluation :=
  match rule.evaluate signal pf with
  | .ok e => e
  | .error _ =>
    { rule_name := rule.name, passed := false, reason := "Rule raised an exception" }

/-- An event published on the bus by one of the embedded services, reduced
to its type string and its payload. -/
inductive BusEvent where
  | signalPayload (type : String) (payload : Signal)
  | alert (level : String) (signal_id : String) (ticker : String)
      (message : String) (errors : List String)
  | text (type : String) (message : String)
  deriving DecidableEq, Repr

/-- The observable outcome of running one of the embedded event handlers:
AI-book positions opened, store writes performed (subdir, filename,
document), events published, and the Python exception that escaped the
handler, if any (the bus's `_safe_invoke` catches it afterwards). -/
structure HandlerOutcome where
  positions_opened : List Position := []
  writes : List (String × String × Signal) := []
  published : List BusEvent := []
  error : Option PyErr := none
  deriving DecidableEq, Repr

/-- `PortfolioTracker.ai_open_position` (`risk/portfolio.py`, lines 64-76):
the `Position` record it builds and writes to `positions/ai/<ticker>.json`.
`opened_at` is the wall-clock default of the model; it is threaded in as
`now`. -/
def ai_open_position (signal : Signal) (now : Nat) : Position :=
  { ticker := signal.ticker
    direction := if signal.direction = "buy" then "long" else "short"
    entry_price := pyOr signal.entry_target 0
    status := "monitoring"
    book := "ai"
    signal_id := some signal.id
    opened_at := now }

/-- `RiskEngine._handle_signal` (`risk/engine.py`, lines 44-117), after the
payload has parsed into `signal`.  It evaluates every registered rule (a
raising rule becomes a failed evaluation), and takes the approval branch
iff all evaluations passed.  The approval branch performs the attribute
assignments of lines 77-79 (`status`, `risk_result`, `delivery_errors`) and
then opens the AI position, persists and publishes; the rejection branch
performs the assignments of lines 100-101 and then persists and publishes.
An attribute assignment that raises aborts the handler with the effects
performed so far. -/
def RiskEngine.handleSignal (rules : List RiskRule) (pf : PortfolioSummary)
    (signal : Signal) (now : Nat) : HandlerOutcome :=
  let evaluations := rules.map (fun r => evalRule r signal pf)
  let all_passed := evaluations.all (fun e => e.passed)
  let result : RiskResult := { approved := all_passed, evaluations := evaluations }
  if all_passed then
    match (signal.setAttr (.status "approved")) >>=
          (fun s => s.setAttr (.risk_result result)) >>=
          (fun s => s.setAttr (.delivery_errors none)) with
    | .error e => { error := some e }
    | .ok s =>
      { positions_opened := [ai_open_position s now]
        writes := [("signals", s.id ++ ".json", s)]
        published := [.signalPayload "signal.approved" s] }
  else
    match (signal.setAttr (.status "rejected")) >>=
          (fun s => s.setAttr (.risk_result result)) with
    | .error e => { error := some e }
    | .ok s =>
      { writes := [("signals", s.id ++ ".json", s)]
        published := [.signalPayload "signal.rejected" s] }

/-! ### Signal delivery service (`engine/signal_delivery.py`) -/

/-- `DeliveryResult` returned by an output adapter's `send`. -/
structure DeliveryResult where
  success : Bool
  adapter : Option String := none
  message : Option String := none
  deriving DecidableEq, Repr

/-- An output adapter as the delivery service sees it: `send` may raise. -/
structure OutputAdapter where
  name : String
  send : Signal → Except String DeliveryResult

/-- The adapter loop of `SignalDeliveryService._handle_signal_approved`
(`engine/signal_delivery.py`, lines 48-64): accumulates the names of
successful adapters and the error strings of failing ones, in order. -/
def deliverLoop (adapters : List OutputAdapter) (signal : Signal) :
    List String × List String :=
  adapters.foldl
    (fun (acc : List String × List String) a =>
      match a.send signal with
      | .error e => (acc.1, acc.2 ++ [a.name ++ ": " ++ e])
      | .ok r =>
        if r.success then (acc.1 ++ [pyOrS r.adapter a.name], acc.2)
        else (acc.1, acc.2 ++ [(pyOrS r.adapter a.name) ++ ": " ++ (pyOrS r.message "delivery failed")]))
    ([], [])

/-- Lexicographic comparison of character lists (Python string `<=`,
by code point). -/
def charsLe : List Char → List Char → Bool
  | [], _ => true
  | _ :: _, [] => false
  | a :: as, b :: bs => if a = b then charsLe as bs else decide (a < b)

/-- Python string comparison `a <= b`. -/
def pyStrLe (a b : String) : Bool := charsLe a.data b.data

/-- Insert into a sorted list (ascending by `le`). -/
def insertSorted (le : α → α → Bool) (x : α) : List α → List α
  | [] => [x]
  | y :: ys => if le x y then x :: y :: ys else y :: insertSorted le x ys

/-- Python `sorted` (ascending by `le`). -/
def sortedBy (le : α → α → Bool) : List α → List α
  | [] => []
  | x :: xs => insertSorted le x (sortedBy le xs)

/-- Python `", ".join(sorted(set(xs)))`: deduplicate, sort ascending, join. -/
def joinSortedSet (xs : List String) : String :=
  String.intercalate ", " (sortedBy pyStrLe xs.dedup)

/-- `SignalDeliveryService._handle_signal_approved`
(`engine/signal_delivery.py`, lines 37-101), after the payload has parsed.
If any adapter succeeded it performs the attribute assignments of lines
68-74 (`status`, `delivered_at`, `delivered_via`, `confirmation_status`,
`confirmation_due_at`, `confirmation_reminder_sent_at`, `delivery_errors`)
and then persists and publishes `signal.delivered`; if all failed it
performs the assignments of lines 85-86 (`status`, `delivery_errors`) and
then persists and publishes `alert.triggered` with level "error".  An
attribute assignment that raises aborts the handler with the effects
performed so far. -/
def SignalDeliveryService.handleSignalApproved (adapters : List OutputAdapter)
    (confirmation_timeout : Nat) (signal : Signal) (now : Nat) : HandlerOutcome :=
  let se := deliverLoop adapters signal
  let successes := se.1
  let errors := se.2
  if successes ≠ [] then
    match (signal.setAttr (.status "delivered")) >>=
          (fun s => s.setAttr (.delivered_at (some now))) >>=
          (fun s => s.setAttr (.delivered_via (some (joinSortedSet successes)))) >>=
          (fun s => s.setAttr (.confirmation_status "pending")) >>=
          (fun s => s.setAttr (.confirmation_due_at (some (now + confirmation_timeout)))) >>=
          (fun s => s.setAttr (.confirmation_reminder_sent_at none)) >>=
          (fun s => s.setAttr (.delivery_errors (if errors ≠ [] then some errors else none))) with
    | .error e => { error := some e }
    | .ok s =>
      { writes := [("signals", s.id ++ ".json", s)]
        published := [.signalPayload "signal.delivered" s] }
  else
    match (signal.setAttr (.status "approved")) >>=
          (fun s => s.setAttr (.delivery_errors
            (some (if errors ≠ [] then errors else ["No output adapters configured"])))) with
    | .error e => { error := some e }
    | .ok s =>
      { writes := [("signals", s.id ++ ".json", s)]
        published := [.alert "error" s.id s.ticker
          "Signal approved but delivery failed on all output adapters"
          (if errors ≠ [] then errors else ["No output adapters configured"])] }

/-! ### Signal files on disk and `Store.list_json` parsing -/

/-- The JSON document of a signal file on disk.  Unlike the in-memory
`Signal` pydantic model, a file may carry the confirmation-lifecycle fields
the specification's data model describes. -/
structure SignalDoc where
  id : String
  ticker : String
  direction : String
  catalyst : String
  confidence : ℚ
  entry_target : Option ℚ := none
  stop_loss : Option ℚ := none
  take_profit : Option ℚ := none
  horizon : String := ""
  memo_id : String := ""
  created_at : Nat := 0
  correlation_id : String := ""
  status : String := "proposed"
  risk_result : Option RiskResult := none
  delivered_at : Option Nat := none
  delivered_via : Option String := none
  confirmation_status : Option String := none
  confirmation_due_at : Option Nat := none
  confirmation_reminder_sent_at : Option Nat := none
  delivery_errors : Option (List String) := none
  deriving DecidableEq, Repr

/-- `Signal(**data)`: the pydantic constructor with the default
`extra="ignore"` configuration copies the declared fields and silently
drops keys the model does not declare (here: the confirmation-lifecycle
fields of the document). -/
def parseSignal (d : SignalDoc) : Signal :=
  { id := d.id, ticker := d.ticker, direction := d.direction
    catalyst := d.catalyst, confidence := d.confidence
    entry_target := d.entry_target, stop_loss := d.stop_loss
    take_profit := d.take_profit, horizon := d.horizon
    memo_id := d.memo_id, created_at := d.created_at
    correlation_id := d.correlation_id, status := d.status
    risk_result := d.risk_result, delivered_at := d.delivered_at
    delivered_via := d.delivered_via }

/-- `Store.list_json("signals", Signal)` (`core/data/store.py`, lines
311-324): reads the `*.json` files of the directory in ascending filename
order and parses each into the `Signal` model. -/
def list_json_signals (dir : List (String × SignalDoc)) : List Signal :=
  (sortedBy (fun a b => pyStrLe a.1 b.1) dir).map (fun e => parseSignal e.2)

/-! ### Pending-confirmation watcher (`engine/pending_confirmation.py`) -/

/-- `PendingConfirmationWatcher._scan_once` (`engine/pending_confirmation.py`,
lines 61-89) over the parsed signal list: a signal whose `status` is not
"delivered" is skipped (line 66-67); for a delivered signal, line 68 reads
`signal.confirmation_status`, an attribute the `Signal` model does not
declare, and the raised `AttributeError` aborts the scan with the effects
performed so far (the `.ok` continuation is unreachable: the source's
remaining checks, reminder publish and reminder-timestamp write compare and
assign fields `Signal` does not declare). -/
def PendingConfirmationWatcher.scanOnce (signals : List Signal) (_now : Nat) :
    HandlerOutcome :=
  match signals with
  | [] => {}
  | s :: rest =>
    if s.status ≠ "delivered" then PendingConfirmationWatcher.scanOnce rest _now
    else
      match s.readAttr "confirmation_status" with
      | .error e => { error := some e }
      | .ok _ => PendingConfirmationWatcher.scanOnce rest _now

/-! ### Calendar arithmetic for `datetime`

Instants are epoch seconds.  The field view (year, month, day, hour,
minute, iso weekday) is computed with the standard civil-calendar
conversion, so that cron matching and same-minute checks can be evaluated
on concrete times. -/

/-- Days-since-epoch to (year, month, day) of the proleptic Gregorian
calendar (valid for all non-negative day counts). -/
def civilFromDays (days : Nat) : Nat × Nat × Nat :=
  let z := days + 719468
  let era := z / 146097
  let doe := z % 146097
  let yoe := (doe - doe / 1460 + doe / 36524 - doe / 146096) / 365
  let y := yoe + era * 400
  let doy := doe - (365 * yoe + yoe / 4 - yoe / 100)
  let mp := (5 * doy + 2) / 153
  let d := doy - (153 * mp + 2) / 5 + 1
  let m := if mp < 10 then mp + 3 else mp - 9
  ((if m ≤ 2 then y + 1 else y), m, d)

/-- Python `datetime.isoweekday()` (Monday = 1 .. Sunday = 7) of an epoch
day count; epoch day 0 (1970-01-01) is a Thursday (iso 4). -/
def isoweekdayOfDays (days : Nat) : Nat := (days + 3) % 7 + 1

/-- The component view of a UTC instant, as Python `datetime` exposes it. -/
structure DT where
  year : Nat
  month : Nat
  day : Nat
  hour : Nat
  minute : Nat
  dow : Nat
  deriving DecidableEq, Repr

/-- The component view (year, month, day, hour, minute, and
`isoweekday() % 7` as used by the cron matcher) of an epoch-seconds
instant. -/
def dtOfEpoch (t : Nat) : DT :=
  let days := t / 86400
  let sod := t % 86400
  let ymd := civilFromDays days
  { year := ymd.1, month := ymd.2.1, day := ymd.2.2
    hour := sod / 3600, minute := (sod % 3600) / 60
    dow := isoweekdayOfDays days % 7 }

/-! ### Cron matching (`scheduler/cron.py`)

String manipulation is embedded over `List Char` with structural
recursion, mirroring Python's `split`/`strip`/`int`. -/

/-- Split a character list at every separator matching `p` (Python
`str.split(sep)` keeps empty parts; this keeps them too). -/
def splitEvery (p : Char → Bool) : List Char → List (List Char)
  | [] => [[]]
  | c :: cs =>
    let rest := splitEvery p cs
    if p c then [] :: rest
    else
      match rest with
      | r :: rs => (c :: r) :: rs
      | [] => [[c]]

/-- Python `str.split()` with no argument: split on whitespace runs,
dropping empty parts (this also subsumes the preceding `.strip()`). -/
def splitWs (cs : List Char) : List (List Char) :=
  (splitEvery Char.isWhitespace cs).filter (fun r => r ≠ [])

/-- Python `field.split("-", 1)`: split at the first occurrence only. -/
def splitFirstOn (sep : Char) : List Char → Option (List Char × List Char)
  | [] => none
  | c :: cs =>
    if c = sep then some ([], cs)
    else
      match splitFirstOn sep cs with
      | some ab => some (c :: ab.1, ab.2)
      | none => none

/-- Python `str.strip()`. -/
def stripChars (cs : List Char) : List Char :=
  ((cs.dropWhile Char.isWhitespace).reverse.dropWhile Char.isWhitespace).reverse

/-- Python `int(s)` on a canonical non-negative decimal string (the only
shape cron fields use); anything else raises `ValueError`, embedded as
`none`. -/
def parseIntChars (cs : List Char) : Option Nat :=
  if cs ≠ [] ∧ cs.all Char.isDigit then
    some (cs.foldl (fun n c => 10 * n + (c.toNat - 48)) 0)
  else none

/-- `_field_matches` (`scheduler/cron.py`, lines 42-75) on a field that
contains no comma: wildcard, then `*/N` step (Python raises
`ZeroDivisionError` on `value % 0`), then `A-B` range, then exact integer.
The source's `min_val`/`max_val` parameters are ignored by its body and are
omitted here. -/
def fieldMatchesNoComma (field : List Char) (value : Nat) : Except PyErr Bool :=
  if field = ['*'] then pure true
  else if field.take 2 = ['*', '/'] then
    match parseIntChars (field.drop 2) with
    | some 0 => .error (.zeroDivisionError "integer modulo by zero")
    | some step => pure (decide (value % step = 0))
    | none => .error (.valueError "Invalid cron step")
  else if field.contains '-' then
    match splitFirstOn '-' field with
    | some ab =>
      match parseIntChars ab.1, parseIntChars ab.2 with
      | some a, some b => pure (decide (a ≤ value ∧ value ≤ b))
      | _, _ => .error (.valueError "Invalid cron range")
    | none => .error (.valueError "Invalid cron range")
  else
    match parseIntChars field with
    | some n => pure (decide (value = n))
    | none => .error (.valueError "Invalid cron field")

/-- The list branch of `_field_matches`: Python
`any(_field_matches(part.strip(), ...) for part in field.split(","))`,
which evaluates the parts left to right and stops at the first `True`.
Parts of a comma split contain no comma, so the recursive call is the
comma-free matcher. -/
def anyPartMatches (parts : List (List Char)) (value : Nat) : Except PyErr Bool :=
  match parts with
  | [] => pure false
  | p :: ps => do
    let b ← fieldMatchesNoComma (stripChars p) value
    if b then pure true else anyPartMatches ps value

/-- `_field_matches` (`scheduler/cron.py`, lines 42-75), including the
comma-list branch, in the source's case order (`*`, `*/N`, list, range,
exact). -/
def fieldMatches (field : List Char) (value : Nat) : Except PyErr Bool :=
  if field = ['*'] then pure true
  else if field.take 2 = ['*', '/'] then
    match parseIntChars (field.drop 2) with
    | some 0 => .error (.zeroDivisionError "integer modulo by zero")
    | some step => pure (decide (value % step = 0))
    | none => .error (.valueError "Invalid cron step")
  else if field.contains ',' then
    anyPartMatches (splitEvery (fun c => c = ',') field) value
  else if field.contains '-' then
    match splitFirstOn '-' field with
    | some ab =>
      match parseIntChars ab.1, parseIntChars ab.2 with
      | some a, some b => pure (decide (a ≤ value ∧ value ≤ b))
      | _, _ => .error (.valueError "Invalid cron range")
    | none => .error (.valueError "Invalid cron range")
  else
    match parseIntChars field with
    | some n => pure (decide (value = n))
    | none => .error (.valueError "Invalid cron field")

/-- `cron_matches` (`scheduler/cron.py`, lines 17-39): split the expression
into five fields and test minute, hour, day-of-month, month and
day-of-week (`isoweekday() % 7`, so 0 = Sunday) against the instant's
components, with Python `and` short-circuiting left to right. -/
def cron_matches (expression : String) (dt : DT) : Except PyErr Bool :=
  match splitWs expression.data with
  | [fMin, fHour, fDom, fMonth, fDow] => do
    let b1 ← fieldMatches fMin dt.minute
    if !b1 then pure false else do
    let b2 ← fieldMatches fHour dt.hour
    if !b2 then pure false else do
    let b3 ← fieldMatches fDom dt.day
    if !b3 then pure false else do
    let b4 ← fieldMatches fMonth dt.month
    if !b4 then pure false else
    fieldMatches fDow dt.dow
  | _ => .error (.valueError "Invalid cron expression (need 5 fields)")

/-! ### Scheduler (`scheduler/runner.py`, `core/models/tasks.py`) -/

/-- `Task` from `core/models/tasks.py`. -/
structure Task where
  id : String
  name : String
  type : String := "recurring"
  cron_expression : Option String := none
  run_at : Option Nat := none
  handler : String
  enabled : Bool := true
  created_by : String := "human"
  created_at : Nat := 0
  parent_task_id : Option String := none
  last_run_at : Option Nat := none
  last_result : Option String := none
  run_count : Nat := 0
  deriving DecidableEq, Repr

/-- The source's same-minute guard (`scheduler/runner.py`, lines 100-108):
`last` and `now` share year, month, day, hour and minute. -/
def sameMinute (last now : Nat) : Bool :=
  let a := dtOfEpoch last
  let b := dtOfEpoch now
  a.year = b.year ∧ a.month = b.month ∧ a.day = b.day ∧
    a.hour = b.hour ∧ a.minute = b.minute

/-- `Scheduler._is_due` (`scheduler/runner.py`, lines 88-115).  `now` is the
UTC wall clock of `_check_tasks` (line 79, `datetime.now(timezone.utc)`);
the `Scheduler` object carries no timezone (its constructor, lines 36-48,
and its construction in `main.py`, lines 422-430, pass only the store, bus,
registry and check interval).  Python truthiness of `task.cron_expression`
(line 97) treats both `None` and the empty string as unset.  A malformed
cron expression makes `cron_matches` raise, embedded as `.error`. -/
def Scheduler.is_due (task : Task) (now : Nat) : Except PyErr Bool :=
  if task.run_at.isSome then
    if task.last_run_at.isSome then pure false
    else pure (decide (now ≥ task.run_at.getD 0))
  else
    match task.cron_expression with
    | some expr =>
      if expr ≠ "" then
        match task.last_run_at with
        | some last =>
          if sameMinute last now then pure false
          else cron_matches expr (dtOfEpoch now)
        | none => cron_matches expr (dtOfEpoch now)
      else pure (decide (task.type = "research" ∧ task.last_run_at = none))
    | none => pure (decide (task.type = "research" ∧ task.last_run_at = none))

/-- The task-record update of `Scheduler._fire_task` (`scheduler/runner.py`,
lines 151-160): `last_run_at := now`, `last_result`, `run_count += 1`, and
one-off / research tasks are disabled. -/
def Scheduler.fireUpdate (task : Task) (now : Nat) (resultStatus : String) : Task :=
  { task with
    last_run_at := some now
    last_result := some resultStatus
    run_count := task.run_count + 1
    enabled := if task.type = "one_off" ∨ task.type = "research" then false
               else task.enabled }

/-- The due predicate as the specification states it (spec §4.4 and claim
C3): `run_at` set ⇒ due iff never run and `now ≥ run_at`; else cron set ⇒
due iff the cron expression matches the current minute and the task did not
already fire in the same (year, month, day, hour, minute); else research ⇒
due iff never run; else not due.  "Set" follows the source's truthiness
(absent or empty string = unset), and "matches" is the source's
minute-granularity cron match at the same instant. -/
def specDue (task : Task) (now : Nat) : Bool :=
  if task.run_at.isSome then
    task.last_run_at = none ∧ now ≥ task.run_at.getD 0
  else
    match task.cron_expression with
    | some expr =>
      if expr ≠ "" then
        (cron_matches expr (dtOfEpoch now) = .ok true) ∧
          ¬ (∃ last, task.last_run_at = some last ∧ sameMinute last now = true)
      else task.type = "research" ∧ task.last_run_at = none
    | none => task.type = "research" ∧ task.last_run_at = none

/-- Modelled from the spec: a fixed-offset scheduler timezone, minutes
ahead of UTC (the configured value `scheduler.timezone` is a zone name
string in `core/config.py`; the source never applies it to the firing
predicate, so only its offset behaviour is needed here).  `Etc/GMT-2`,
used below, is UTC+2: offset 120. -/
structure SchedulerTz where
  offsetMinutes : Nat
  deriving DecidableEq, Repr

/-- A UTC instant expressed in a fixed-offset timezone. -/
def localize (t : Nat) (tz : SchedulerTz) : Nat := t + tz.offsetMinutes * 60

/-- Modelled from the spec (claim C4): the due decision for a
never-yet-run recurring cron task when the cron expression is evaluated
against the current time expressed in the given scheduler timezone. -/
def specCronDueInTz (expr : String) (now : Nat) (tz : SchedulerTz) : Bool :=
  cron_matches expr (dtOfEpoch (localize now tz)) = .ok true

/-! ### Event bus (`core/bus.py`)

A handler is embedded as a state transformer that returns the state it
reached together with the exception (if any) that escaped it — a raising
Python coroutine keeps the side effects it performed before raising. -/

/-- A subscribed callback: runs on the shared state and either completes
(`none`) or raises an exception (`some e`), having performed its effects
either way up to that point. -/
structure Callback (σ ε : Type) where
  run : σ → σ × Option ε

/-- The bus's registrations: exact-type subscribers (in registration
order) and wildcard subscribers. -/
structure AsyncIOBus (σ ε : Type) where
  subscribers : List (String × Callback σ ε)
  wildcard : List (Callback σ ε)

/-- The callback set `publish` dispatches to (`core/bus.py`, lines 50-53):
exact-type subscribers followed by wildcard subscribers. -/
def AsyncIOBus.callbacksFor (bus : AsyncIOBus σ ε) (type : String) :
    List (Callback σ ε) :=
  (bus.subscribers.filter (fun e => e.1 = type)).map (fun e => e.2) ++ bus.wildcard

/-- `AsyncIOBus._safe_invoke` (`core/bus.py`, lines 98-107): run the
callback; an exception is caught and handed to the logger (returned here)
instead of propagating. -/
def safe_invoke (cb : Callback σ ε) (s : σ) : σ × Option ε := cb.run s

/-- One step of the dispatch fold: run the next callback through
`_safe_invoke` on the state reached so far, appending its logged exception
(if any). -/
def gatherStep (acc : σ × List ε) (cb : Callback σ ε) : σ × List ε :=
  let r := safe_invoke cb acc.1
  (r.1, acc.2 ++ r.2.toList)

/-- `AsyncIOBus.publish` (`core/bus.py`, lines 44-74), restricted to its
dispatch part: every callback is started (wrapped in `_safe_invoke`) and
all are awaited with `return_exceptions=True`.  The result is the state
after all handlers ran and the list of logged handler exceptions; the
`Except` layer records whether anything escaped to the publisher. -/
def AsyncIOBus.publish (bus : AsyncIOBus σ ε) (type : String) (s : σ) :
    Except ε (σ × List ε) :=
  .ok ((bus.callbacksFor type).foldl gatherStep (s, []))

/-- The specification's reading of dispatch: every subscribed handler for
the event is invoked and completes, in order, regardless of the failures
of the others. -/
def runAllHandlers (cbs : List (Callback σ ε)) (s : σ) : σ :=
  cbs.foldl (fun st cb => (cb.run st).1) s

/-- The exceptions the handlers of `cbs` raise when all are run in order
from `s` (these are the ones `_safe_invoke` logs). -/
def raisedExceptions (cbs : List (Callback σ ε)) (s : σ) : List ε :=
  (cbs.foldl gatherStep (s, [])).2

/-! ### Store file writes (`core/data/store.py`)

`write_json` is embedded as the trace of file-system operations it
performs, so that atomicity (write-temp-then-rename) is a statable
property of the trace. -/

/-- A file-system operation performed by the store. -/
inductive FsOp where
  | mkdirParents (path : String)
  | writeFile (path : String) (contents : String)
  | renameFile (src dst : String)
  deriving DecidableEq, Repr

/-- `Store.write_json` (`core/data/store.py`, lines 292-297): create the
parent directory, then write the serialized model directly to the
destination path with a single `Path.write_text` call. -/
def Store.write_json_trace (home subdir filename contents : String) : List FsOp :=
  [FsOp.mkdirParents (home ++ "/" ++ subdir),
   FsOp.writeFile (home ++ "/" ++ subdir ++ "/" ++ filename) contents]

/-- The claim's notion of an atomic replace (spec §4.2,
"write-temp-then-rename"): the trace writes the bytes to some temporary
path different from the destination and then renames it over the
destination, and never writes the destination directly. -/
def atomicReplaceTrace (ops : List FsOp) (dst contents : String) : Prop :=
  (∃ tmp, tmp ≠ dst ∧
    (FsOp.writeFile tmp contents) ∈ ops ∧ (FsOp.renameFile tmp dst) ∈ ops) ∧
  ∀ c, (FsOp.writeFile dst c) ∉ ops

/-! ### Portfolio tracker as a file-system state machine
(`risk/portfolio.py`)

The positions directory is an association list from file path to the
`Position` the file holds; a `write_text` to an existing path replaces the
file's contents. -/

/-- The positions file system: one entry per existing file path. -/
abbrev PosFs : Type := List (String × Position)

/-- Writing a file: replace the contents if the path exists, else create
it (one entry per path; the entry for an existing path is unique by the
no-duplicate-keys invariant proved below). -/
def fsWrite : PosFs → String → Position → PosFs
  | [], path, p => [(path, p)]
  | e :: fs, path, p =>
    if e.1 = path then (path, p) :: fs else e :: fsWrite fs path p

/-- Reading a file (`Store.read_json`): the contents at the path. -/
def fsRead (fs : PosFs) (path : String) : Option Position :=
  (fs.find? (fun e => e.1 = path)).map (fun e => e.2)

/-- The position file path used throughout `risk/portfolio.py`:
`positions/<book>/<ticker>.json`. -/
def posPath (book ticker : String) : String :=
  "positions/" ++ book ++ "/" ++ ticker ++ ".json"

/-- `PortfolioTracker.human_confirm_position` (`risk/portfolio.py`, lines
106-129): the `Position` it builds. -/
def human_confirm_position (signal : Signal) (entry_price : ℚ) (size : Option ℚ)
    (via : String) (notes : Option String) (now : Nat) : Position :=
  { ticker := signal.ticker
    direction := if signal.direction = "buy" then "long" else "short"
    size := size
    entry_price := entry_price
    status := "confirmed"
    book := "human"
    signal_id := some signal.id
    opened_at := now
    confirmed_at := some now
    confirmed_via := some via
    user_notes := notes }

/-- `PortfolioTracker.human_skip_position` (`risk/portfolio.py`, lines
131-151): the `Position` it builds. -/
def human_skip_position (signal : Signal) (via : String) (notes : Option String)
    (now : Nat) : Position :=
  { ticker := signal.ticker
    direction := if signal.direction = "buy" then "long" else "short"
    entry_price := pyOr signal.entry_target 0
    status := "skipped"
    book := "human"
    signal_id := some signal.id
    opened_at := now
    confirmed_at := some now
    confirmed_via := some via
    user_notes := notes }

/-- `PortfolioTracker.human_initiated_trade` (`risk/portfolio.py`, lines
178-202): the `Position` it builds — `signal_id` is `None` (no AI signal)
and the status is `confirmed`. -/
def human_initiated_trade (ticker direction : String) (entry_price : ℚ)
    (size : Option ℚ) (via : String) (notes : Option String) (now : Nat) : Position :=
  { ticker := ticker
    direction := direction
    size := size
    entry_price := entry_price
    status := "confirmed"
    book := "human"
    signal_id := none
    opened_at := now
    confirmed_at := some now
    confirmed_via := some via
    user_notes := notes }

/-- The close-position update shared by `ai_close_position` and
`human_close_position` (`risk/portfolio.py`, lines 84-96 and 159-172). -/
def closeUpdate (p : Position) (close_price : ℚ) (now : Nat)
    (via : Option String) : Position :=
  let realized :=
    if p.direction = "long" then (close_price - p.entry_price) * (pyOr p.size 1)
    else (p.entry_price - close_price) * (pyOr p.size 1)
  { p with
    status := "closed"
    close_price := some close_price
    closed_at := some now
    confirmed_via := match via with | some v => some v | none => p.confirmed_via
    realized_pnl := some realized
    realized_pnl_percent :=
      if p.entry_price ≠ 0 then
        some (realized / (p.entry_price * (pyOr p.size 1)) * 100)
      else p.realized_pnl_percent }

/-- One invocation of a position-writing operation of
`PortfolioTracker`. -/
inductive TrackerOp where
  | ai_open (signal : Signal) (now : Nat)
  | ai_close (ticker : String) (close_price : ℚ) (now : Nat)
  | human_confirm (signal : Signal) (entry_price : ℚ) (size : Option ℚ)
      (via : String) (notes : Option String) (now : Nat)
  | human_skip (signal : Signal) (via : String) (notes : Option String) (now : Nat)
  | human_close (ticker : String) (close_price : ℚ) (via : String) (now : Nat)
  | human_initiated (ticker direction : String) (entry_price : ℚ)
      (size : Option ℚ) (via : String) (notes : Option String) (now : Nat)

/-- The effect of each `PortfolioTracker` operation on the positions file
system, as `risk/portfolio.py` performs it: every operation writes (or
rewrites) the single file `positions/<book>/<ticker>.json`; the close
operations first read it and do nothing when it is absent. -/
def applyOp (fs : PosFs) : TrackerOp → PosFs
  | .ai_open signal now =>
    fsWrite fs (posPath "ai" signal.ticker) (ai_open_position signal now)
  | .ai_close ticker close_price now =>
    match fsRead fs (posPath "ai" ticker) with
    | none => fs
    | some p => fsWrite fs (posPath "ai" ticker) (closeUpdate p close_price now none)
  | .human_confirm signal entry_price size via notes now =>
    fsWrite fs (posPath "human" signal.ticker)
      (human_confirm_position signal entry_price size via notes now)
  | .human_skip signal via notes now =>
    fsWrite fs (posPath "human" signal.ticker)
      (human_skip_position signal via notes now)
  | .human_close ticker close_price via now =>
    match fsRead fs (posPath "human" ticker) with
    | none => fs
    | some p =>
      fsWrite fs (posPath "human" ticker) (closeUpdate p close_price now (some via))
  | .human_initiated ticker direction entry_price size via notes now =>
    fsWrite fs (posPath "human" ticker)
      (human_initiated_trade ticker direction entry_price size via notes now)

/-- Run a sequence of tracker operations from an empty positions
directory. -/
def applyOps (ops : List TrackerOp) : PosFs := ops.foldl applyOp []

/-! ### The confirm-trade tool of the AI interface (`engine/interface.py`) -/

/-- Python `str.upper()` for the ASCII tickers the tool handles. -/
def pyUpper (s : String) : String := String.mk (s.data.map Char.toUpper)

/-- The outcome of `_tool_confirm_trade`: either a human-book confirmation
bound to a stored signal, or the silent fallback to a user-initiated
trade. -/
inductive ConfirmOutcome where
  | confirmed (p : Position) (boundSignal : Signal)
  | user_initiated (p : Position)
  deriving DecidableEq, Repr

/-- The matching signals of `_tool_confirm_trade` (`engine/interface.py`,
line 710): the stored signals, in ascending filename order, whose ticker
equals the upper-cased argument and whose status is `approved` or
`delivered`. -/
def matchingSignals (signalsDir : List (String × SignalDoc)) (ticker : String) :
    List Signal :=
  (list_json_signals signalsDir).filter
    (fun s => s.ticker = ticker ∧ (s.status = "approved" ∨ s.status = "delivered"))

/-- `AIInterface._tool_confirm_trade` (`engine/interface.py`, lines
703-728): if any stored signal for the upper-cased ticker has status
`approved` or `delivered`, confirm the human position against
`matching[-1]` (the last element of the filename-ordered match list);
otherwise fall back to `_tool_user_initiated` (lines 765-775) with
direction "long", which records a human-initiated trade with no
signal id. -/
def tool_confirm_trade (signalsDir : List (String × SignalDoc))
    (tickerArg : String) (entry_price : ℚ) (size : Option ℚ)
    (source : String) (now : Nat) : ConfirmOutcome :=
  let ticker := pyUpper tickerArg
  let matching := matchingSignals signalsDir ticker
  match matching.getLast? with
  | some signal =>
    .confirmed (human_confirm_position signal entry_price size source none now) signal
  | none =>
    .user_initiated
      (human_initiated_trade ticker "long" entry_price size source
        (some "User-initiated trade") now)

/-! ## Spec-side definitions used by the claims -/

/-- Modelled from the spec (claim C5): the combined new-plus-existing
exposure to the signal's ticker as a fraction of total portfolio value.
The prospective position is valued at the signal's entry target with the
tracker's size-1 convention (the source gives it no size). -/
def specCombinedExposureFrac (signal : Signal) (pf : PortfolioSummary) : ℚ :=
  (existingValue signal pf + signal.entry_target.getD 0) / pf.total_value

/-! ## Concrete fixtures -/

/-- An open AI-book position worth a tenth of the fixture portfolio. -/
def nvdaPosition : Position :=
  { ticker := "NVDA", direction := "long", size := some 1, entry_price := 10
    status := "monitoring", book := "ai" }

/-- A second open AI-book position in another ticker worth the remaining
nine tenths. -/
def msftPosition : Position :=
  { ticker := "MSFT", direction := "long", size := some 1, entry_price := 90
    status := "monitoring", book := "ai" }

/-- A portfolio summary holding `nvdaPosition` and `msftPosition`;
`total_value` 100 is the sum of the open position values, as
`PortfolioTracker.get_summary` would compute it. -/
def smallPortfolio : PortfolioSummary :=
  { portfolio_type := "ai", total_value := 100
    positions := [nvdaPosition, msftPosition] }

/-- A proposed signal for NVDA whose entry target is a fifth of the
fixture portfolio's value. -/
def nvdaSignal : Signal :=
  { id := "sig_nvda1", ticker := "NVDA", direction := "buy"
    catalyst := "earnings", confidence := 82/100, entry_target := some 20 }

/-- The event-type string of a published `BusEvent`. -/
def BusEvent.typeOf : BusEvent → String
  | .signalPayload t _ => t
  | .alert _ _ _ _ _ => "alert.triggered"
  | .text t _ => t

/-- The empty AI book. -/
def emptyAIPortfolio : PortfolioSummary :=
  { portfolio_type := "ai", total_value := 0, positions := [] }

/-- The built-in confidence rule at its default threshold 0.6, as
registered. -/
def confidenceRule : RiskRule :=
  { name := "confidence"
    evaluate := fun s pf => .ok (ConfidenceRule.evaluate (6/10) s pf) }

/-- The built-in concentration rule at its default limit 0.15, as
registered. -/
def concentrationRule : RiskRule :=
  { name := "concentration"
    evaluate := fun s pf => .ok (ConcentrationRule.evaluate (15/100) s pf) }

/-- The registered rule list used in the concrete runs below. -/
def defaultRules : List RiskRule := [confidenceRule, concentrationRule]

/-- `nvdaSignal` with confidence below the 0.6 threshold. -/
def lowConfidenceSignal : Signal := { nvdaSignal with confidence := 1/2 }

/-- An output adapter whose `send` succeeds. -/
def okAdapter : OutputAdapter :=
  { name := "telegram", send := fun _ => .ok { success := true } }

/-- An output adapter whose `send` reports failure. -/
def failAdapter : OutputAdapter :=
  { name := "discord", send := fun _ => .ok { success := false, message := some "http 500" } }

/-- `nvdaSignal` as it would arrive in a `signal.approved` payload. -/
def approvedSignal : Signal := { nvdaSignal with status := "approved" }

/-- A signal file recording a delivered signal pending confirmation, due
in the past and never reminded — exactly the state the watcher's claim is
about. -/
def deliveredDoc : SignalDoc :=
  { id := "sig_del1", ticker := "NVDA", direction := "buy", catalyst := "earnings"
    confidence := 82/100, entry_target := some 900, status := "delivered"
    delivered_at := some 1705280000, delivered_via := some "telegram"
    confirmation_status := some "pending", confirmation_due_at := some 1705300000
    confirmation_reminder_sent_at := none }

/-- A second stored signal that is still `proposed`. -/
def proposedDoc : SignalDoc :=
  { id := "sig_pro2", ticker := "AAPL", direction := "sell", catalyst := "guidance"
    confidence := 7/10, status := "proposed" }

/-- A recurring five-minutely cron task that has never run. -/
def cronTask : Task :=
  { id := "task_c3", name := "five-minutely briefing", handler := "news.briefing"
    type := "recurring", cron_expression := some "*/5 * * * *" }

/-- A recurring cron task firing daily at 14:00, never yet run. -/
def cron14Task : Task :=
  { id := "task_c4", name := "daily-14", handler := "ai.run_prompt"
    type := "recurring", cron_expression := some "0 14 * * *" }

/-- The configured scheduler timezone of the counterexample:
`Etc/GMT-2`, a fixed-offset zone two hours ahead of UTC. -/
def gmtMinus2Tz : SchedulerTz := { offsetMinutes := 120 }

/-! ## The claims -/

/-- Claim C5, counterexample.  The claim states that the concentration
rule passes iff the combined new-plus-existing exposure to the ticker, as
a fraction of total portfolio value, is strictly below
`max_single_position` (0.15).  At this input the existing exposure is 0.10
(so the rule passes) while the combined new-plus-existing exposure is
0.30 ≥ 0.15 (so the claim says it must fail): the rule never sizes the
proposed signal into the check. -/
theorem concentration_ignores_new_exposure :
    ¬ (((ConcentrationRule.evaluate (15/100) nvdaSignal smallPortfolio).passed = true) ↔
        specCombinedExposureFrac nvdaSignal smallPortfolio < 15/100) := by
  with_unfolding_all decide

/-- Claim C5, amended: the concentration rule passes a proposed signal iff
the portfolio has no positions, or its total value is non-positive, or the
signal's ticker has no existing open (non-closed, non-skipped) position,
or the *existing* exposure to the ticker as a fraction of total portfolio
value is strictly below `max_single_position`; the prospective position
itself is never added to the exposure. -/
theorem concentration_passes_iff_existing_below_limit
    (m : ℚ) (signal : Signal) (pf : PortfolioSummary) :
    (ConcentrationRule.evaluate m signal pf).passed = true ↔
      (pf.positions = [] ∨ pf.total_value ≤ 0 ∨
        existingPositions signal pf = [] ∨
        existingValue signal pf / pf.total_value < m) := by
  unfold ConcentrationRule.evaluate
  dsimp only
  split_ifs with h0 hex hvne hge hge0
  · constructor
    · intro _
      exact h0.elim Or.inl (fun h => Or.inr (Or.inl h))
    · intro _
      rfl
  · push_neg at h0
    constructor
    · intro h
      simp at h
    · intro hr
      rcases hr with h | h | h | h
      · exact absurd h h0.1
      · exact absurd h (not_le_of_gt h0.2)
      · exact absurd h hex
      · exact absurd h (not_lt_of_ge hge)
  · push_neg at h0
    constructor
    · intro _
      exact Or.inr (Or.inr (Or.inr (lt_of_not_ge hge)))
    · intro _
      rfl
  · push_neg at h0
    exact absurd (ne_of_gt h0.2) hvne
  · push_neg at h0
    exact absurd (ne_of_gt h0.2) hvne
  · push_neg at hex
    constructor
    · intro _
      exact Or.inr (Or.inr (Or.inl hex))
    · intro _
      rfl

/-- Claim C6, counterexample.  The claim states that the store's entity
write is an atomic replace (write to a temporary file, then rename over
the destination).  The trace of `Store.write_json` for a concrete signal
write contains no rename at all and writes the destination path
directly. -/
theorem write_json_not_write_temp_then_rename :
    ¬ atomicReplaceTrace
        (Store.write_json_trace "/root/.opensuperfin" "signals" "sig_1.json" "contents")
        ("/root/.opensuperfin" ++ "/" ++ "signals" ++ "/" ++ "sig_1.json") "contents" := by
  intro h
  obtain ⟨⟨tmp, _, _, hr⟩, _⟩ := h
  simp [Store.write_json_trace] at hr

/-- Claim C6, amended: `Store.write_json` is a direct write, not an atomic
replace — its file-system trace creates the parent directory and then
writes the serialized bytes straight to the destination path
`<home>/<subdir>/<filename>`; it performs no rename and uses no temporary
file, so the write-temp-then-rename property fails for every write. -/
theorem write_json_direct_write (home subdir filename contents : String) :
    (∀ src dst, FsOp.renameFile src dst ∉ Store.write_json_trace home subdir filename contents) ∧
    FsOp.writeFile (home ++ "/" ++ subdir ++ "/" ++ filename) contents ∈
      Store.write_json_trace home subdir filename contents ∧
    ¬ atomicReplaceTrace (Store.write_json_trace home subdir filename contents)
        (home ++ "/" ++ subdir ++ "/" ++ filename) contents := by
  refine ⟨?_, ?_, ?_⟩
  · intro src dst h
    simp [Store.write_json_trace] at h
  · simp [Store.write_json_trace]
  · intro h
    obtain ⟨⟨tmp, _, _, hr⟩, _⟩ := h
    simp [Store.write_json_trace] at hr

/-- Claim C1 (code bug).  The claim — every rule is evaluated and
`signal.approved` is published (with the position opened and the record
persisted first) iff all rules pass — describes the specified behaviour,
but the approval branch of `RiskEngine._handle_signal` is unreachable in
the source: line 79 (`signal.delivery_errors = None`) assigns an attribute
the `Signal` pydantic model does not declare, so pydantic raises
`ValueError` before the position is opened, the record written, or the
event published.  At this input every registered rule passes, yet the
handler aborts with no effects; the rejection branch (which assigns only
declared fields) still works. -/
theorem risk_engine_approval_path_raises_on_missing_field :
    ((defaultRules.map (fun r => evalRule r nvdaSignal emptyAIPortfolio)).all
        (fun e => e.passed)) = true ∧
    RiskEngine.handleSignal defaultRules emptyAIPortfolio nvdaSignal 1705320000 =
      { error := some (.valueError "Signal object has no field delivery_errors") } ∧
    (RiskEngine.handleSignal defaultRules emptyAIPortfolio lowConfidenceSignal 1705320000).error
        = none ∧
    ((RiskEngine.handleSignal defaultRules emptyAIPortfolio lowConfidenceSignal
        1705320000).published.map BusEvent.typeOf) = ["signal.rejected"] ∧
    ((RiskEngine.handleSignal defaultRules emptyAIPortfolio lowConfidenceSignal
        1705320000).writes.map (fun w => w.1)) = ["signals"] := by
  with_unfolding_all decide

/-- Claim C2 (code bug).  The claim — any adapter success marks the signal
`delivered` with the confirmation-lifecycle fields set and publishes
`signal.delivered`, while total failure keeps it `approved`, records
`delivery_errors` and publishes an error alert — describes the specified
behaviour, but both branches of
`SignalDeliveryService._handle_signal_approved` assign attributes the
`Signal` pydantic model does not declare (line 71,
`signal.confirmation_status`, on the success branch; line 86,
`signal.delivery_errors`, on the all-fail branch), so pydantic raises
`ValueError` before anything is persisted or published.  The adapter loop
itself behaves as described (first conjunct). -/
theorem delivery_handler_raises_on_missing_fields :
    deliverLoop [okAdapter, failAdapter] approvedSignal =
      (["telegram"], ["discord: http 500"]) ∧
    SignalDeliveryService.handleSignalApproved [okAdapter, failAdapter] 14400
        approvedSignal 1705320000 =
      { error := some (.valueError "Signal object has no field confirmation_status") } ∧
    SignalDeliveryService.handleSignalApproved [failAdapter] 14400
        approvedSignal 1705320000 =
      { error := some (.valueError "Signal object has no field delivery_errors") } := by
  with_unfolding_all decide

/-- Claim C7 (code bug).  The claim — the watcher reminds exactly once for
each delivered signal with `confirmation_status = pending`, no prior
reminder, and `confirmation_due_at ≤ now` — describes the specified
behaviour, but the `Signal` pydantic model declares none of the
confirmation fields: parsing the file drops them (`extra="ignore"`), and
line 68 of `engine/pending_confirmation.py`
(`signal.confirmation_status`) raises `AttributeError` on the first
delivered signal, aborting the scan before any reminder is published or
any reminder timestamp written.  The fixture file satisfies every
condition of the claim (first conjuncts), yet the scan aborts (last
conjunct). -/
theorem pending_watcher_raises_on_missing_attribute :
    deliveredDoc.status = "delivered" ∧
    deliveredDoc.confirmation_status = some "pending" ∧
    deliveredDoc.confirmation_reminder_sent_at = none ∧
    deliveredDoc.confirmation_due_at = some 1705300000 ∧ 1705300000 ≤ 1705320000 ∧
    PendingConfirmationWatcher.scanOnce
        (list_json_signals [("sig_del1.json", deliveredDoc), ("sig_pro2.json", proposedDoc)])
        1705320000 =
      { error := some (.attributeError "Signal object has no attribute confirmation_status") } := by
  decide

/-- The dispatch fold equals the run-everything fold, for any starting
log. -/
theorem gatherStep_foldl {σ ε : Type} (cbs : List (Callback σ ε)) (s : σ) (l : List ε) :
    cbs.foldl gatherStep (s, l) = (runAllHandlers cbs s, l ++ raisedExceptions cbs s) := by
  induction cbs generalizing s l with
  | nil => simp [runAllHandlers, raisedExceptions]
  | cons cb rest ih =>
    have hstep : gatherStep (s, l) cb = ((cb.run s).1, l ++ ((cb.run s).2.toList)) := rfl
    have h1 := ih (cb.run s).1 (l ++ ((cb.run s).2.toList))
    have h2 := ih (cb.run s).1 ((cb.run s).2.toList)
    have hre : raisedExceptions (cb :: rest) s
        = ((cb.run s).2.toList) ++ raisedExceptions rest (cb.run s).1 := by
      show (List.foldl gatherStep (gatherStep (s, []) cb) rest).2
        = ((cb.run s).2.toList) ++ raisedExceptions rest (cb.run s).1
      rw [show gatherStep (s, ([] : List ε)) cb
            = ((cb.run s).1, ((cb.run s).2.toList)) from rfl, h2]
    rw [List.foldl_cons, hstep, h1, hre]
    have hrun : runAllHandlers (cb :: rest) s = runAllHandlers rest (cb.run s).1 := rfl
    rw [hrun, List.append_assoc]

/-- Claim C8.  For every published event, `publish` returns normally (no
handler exception reaches the publisher), the final state is that of
running every subscribed handler for the event in order — a handler's
failure does not prevent any later handler from running — and the
exceptions handlers raised are exactly the ones caught and logged by
`_safe_invoke`. -/
theorem publish_isolates_handler_failures {σ ε : Type}
    (bus : AsyncIOBus σ ε) (type : String) (s : σ) :
    AsyncIOBus.publish bus type s =
      .ok (runAllHandlers (bus.callbacksFor type) s,
           raisedExceptions (bus.callbacksFor type) s) := by
  unfold AsyncIOBus.publish
  rw [gatherStep_foldl]
  simp

/-- Claim C3.  For an enabled task the scheduler's due decision is the
spec's due predicate: a `run_at` task is due iff it never ran and
`now ≥ run_at`; else a (non-empty) cron task is due iff the expression
matches the current minute and the task did not already fire in the same
(year, month, day, hour, minute); else a research task is due iff it never
ran; else not due.  Moreover a task with `run_at` set fires at most once:
after the firing update writes `last_run_at`, it is never due again.  The
hypothesis asks only that the task's cron expression (when one is used)
evaluates without a parse error at `now`. -/
theorem is_due_matches_spec_due (task : Task) (now : Nat)
    (hc : ∀ e, task.run_at = none → task.cron_expression = some e → e ≠ "" →
      ∃ b, cron_matches e (dtOfEpoch now) = .ok b) :
    Scheduler.is_due task now = .ok (specDue task now) ∧
    ∀ (rs : String) (now2 : Nat),
      task.run_at = none ∨
        Scheduler.is_due (Scheduler.fireUpdate task now rs) now2 = .ok false := by
  constructor
  · unfold Scheduler.is_due specDue
    by_cases hra : task.run_at.isSome
    · rw [if_pos hra, if_pos hra]
      cases hl : task.last_run_at with
      | some l =>
        rw [if_pos (by simp [hl])]
        rfl
      | none =>
        rw [if_neg (by simp [hl])]
        simp
        rfl
    · have hra' : task.run_at = none := Option.not_isSome_iff_eq_none.mp hra
      rw [if_neg hra, if_neg hra]
      cases hce : task.cron_expression with
      | none => rfl
      | some e =>
        dsimp only
        by_cases he : e = ""
        · subst he
          rfl
        · rw [if_pos he, if_pos he]
          obtain ⟨b, hb⟩ := hc e hra' hce he
          cases hl : task.last_run_at with
          | none =>
            rw [hb]
            cases b with
            | true => simp [hb]
            | false =>
              simp only [Except.ok.injEq]
              rw [eq_comm, decide_eq_false_iff_not]
              intro hcontra
              simp at hcontra
          | some l =>
            dsimp only
            by_cases hsm : sameMinute l now = true
            · rw [if_pos hsm]
              refine congrArg Except.ok ?_
              rw [eq_comm, decide_eq_false_iff_not]
              intro hcontra
              exact hcontra.2 ⟨l, rfl, hsm⟩
            · rw [if_neg hsm, hb]
              simp only [Except.ok.injEq]
              cases b with
              | true =>
                rw [eq_comm, decide_eq_true_eq]
                refine ⟨rfl, ?_⟩
                rintro ⟨l2, hl2, hsm2⟩
                rw [Option.some.injEq] at hl2
                rw [← hl2] at hsm2
                exact hsm hsm2
              | false =>
                rw [eq_comm, decide_eq_false_iff_not]
                intro hcontra
                simp at hcontra
  · intro rs now2
    cases hra : task.run_at with
    | none => exact Or.inl rfl
    | some r =>
      refine Or.inr ?_
      simp [Scheduler.is_due, Scheduler.fireUpdate, hra]
      rfl

/-- Witness for `is_due_matches_spec_due` at the concrete task `cronTask`
and instant 2024-01-15 12:00:00 UTC, discharging the
cron-evaluates-cleanly hypothesis by computation. -/
theorem is_due_matches_spec_due_witness :
    Scheduler.is_due cronTask 1705320000 = .ok (specDue cronTask 1705320000) ∧
    ∀ (rs : String) (now2 : Nat),
      cronTask.run_at = none ∨
        Scheduler.is_due (Scheduler.fireUpdate cronTask 1705320000 rs) now2 = .ok false :=
  is_due_matches_spec_due cronTask 1705320000
    (fun e _ h2 _ => by
      injection h2 with h
      subst h
      exact ⟨true, by decide⟩)

/-- Claim C4, counterexample.  The claim states that the cron expression
is evaluated against the current time expressed in the configured
scheduler timezone.  At 2024-01-15 12:00:00 UTC with configured timezone
`Etc/GMT-2` (local time 14:00), the task `0 14 * * *` is due under the
claim, but `Scheduler._is_due` evaluates the expression at the UTC hour 12
and reports not due: the configured timezone is read from the
configuration but never applied by the firing predicate. -/
theorem cron_not_evaluated_in_configured_timezone :
    ¬ ((Scheduler.is_due cron14Task 1705320000 = .ok true) ↔
        specCronDueInTz "0 14 * * *" 1705320000 gmtMinus2Tz = true) := by
  decide

/-- Claim C4, amended: for every recurring task with a (non-empty, not yet
fired) cron expression, the scheduler evaluates the expression against the
current *UTC* time — equivalently, against the configured timezone only
when that timezone has offset 0 — at whole-minute granularity; day-of-week
0 means Sunday (the `dow` component is 0 exactly on days ≡ 3 mod 7 from
the epoch, i.e. Sundays, 1970-01-01 being a Thursday).  The scheduler's
due decision takes no timezone input at all (`Scheduler.is_due`), so the
configured `scheduler.timezone` cannot influence it. -/
theorem cron_evaluated_in_utc (task : Task) (now : Nat) (e : String)
    (h1 : task.run_at = none) (h2 : task.cron_expression = some e)
    (h3 : e ≠ "") (h4 : task.last_run_at = none) :
    Scheduler.is_due task now = cron_matches e (dtOfEpoch now) ∧
    Scheduler.is_due task now =
      cron_matches e (dtOfEpoch (localize now { offsetMinutes := 0 })) ∧
    ((dtOfEpoch now).dow = 0 ↔ (now / 86400) % 7 = 3) := by
  have hmain : Scheduler.is_due task now = cron_matches e (dtOfEpoch now) := by
    unfold Scheduler.is_due
    rw [if_neg (by simp [h1])]
    rw [h2]
    dsimp only
    rw [if_pos h3, h4]
  refine ⟨hmain, ?_, ?_⟩
  · have hloc : localize now { offsetMinutes := 0 } = now := by
      simp [localize]
    rw [hloc]
    exact hmain
  · unfold dtOfEpoch isoweekdayOfDays
    dsimp only
    omega

/-- Witness for `cron_evaluated_in_utc` at the concrete task `cron14Task`
and instant 2024-01-15 12:00:00 UTC, discharging every hypothesis by
computation. -/
theorem cron_evaluated_in_utc_witness :
    Scheduler.is_due cron14Task 1705320000 =
      cron_matches "0 14 * * *" (dtOfEpoch 1705320000) ∧
    Scheduler.is_due cron14Task 1705320000 =
      cron_matches "0 14 * * *" (dtOfEpoch (localize 1705320000 { offsetMinutes := 0 })) ∧
    ((dtOfEpoch 1705320000).dow = 0 ↔ (1705320000 / 86400) % 7 = 3) :=
  cron_evaluated_in_utc cron14Task 1705320000 "0 14 * * *" rfl rfl
    (by decide) rfl

/-- Every key of `fsWrite fs path p` is `path` or a key of `fs`. -/
theorem fsWrite_keys_subset (fs : PosFs) (path : String) (p : Position) :
    ∀ k ∈ (fsWrite fs path p).map Prod.fst, k = path ∨ k ∈ fs.map Prod.fst := by
  induction fs with
  | nil =>
    intro k hk
    simp [fsWrite] at hk
    exact Or.inl hk
  | cons e fs ih =>
    intro k hk
    by_cases he : e.1 = path
    · rw [fsWrite, if_pos he] at hk
      simp at hk
      rcases hk with h | h
      · exact Or.inl h
      · exact Or.inr (by simp [h])
    · rw [fsWrite, if_neg he] at hk
      simp at hk
      rcases hk with h | h
      · exact Or.inr (by simp [h])
      · rcases ih k (by simpa using h) with h2 | h2
        · exact Or.inl h2
        · exact Or.inr (by simp [List.mem_map] at h2 ⊢; tauto)

/-- `fsWrite` preserves the no-duplicate-file-paths invariant. -/
theorem fsWrite_nodup_keys (fs : PosFs) (path : String) (p : Position)
    (h : (fs.map Prod.fst).Nodup) : ((fsWrite fs path p).map Prod.fst).Nodup := by
  induction fs with
  | nil => simp [fsWrite]
  | cons e fs ih =>
    rw [List.map_cons, List.nodup_cons] at h
    by_cases he : e.1 = path
    · rw [fsWrite, if_pos he]
      rw [List.map_cons, List.nodup_cons]
      exact ⟨by rw [← he]; exact h.1, h.2⟩
    · rw [fsWrite, if_neg he]
      rw [List.map_cons, List.nodup_cons]
      refine ⟨?_, ih h.2⟩
      intro hmem
      rcases fsWrite_keys_subset fs path p e.1 hmem with h2 | h2
      · exact he h2
      · exact h.1 h2

/-- Reading back a just-written path yields the written record, whatever
was stored there before. -/
theorem fsWrite_read_same (fs : PosFs) (path : String) (p : Position) :
    fsRead (fsWrite fs path p) path = some p := by
  induction fs with
  | nil => simp [fsWrite, fsRead]
  | cons e fs ih =>
    by_cases he : e.1 = path
    · rw [fsWrite, if_pos he]
      simp [fsRead]
    · rw [fsWrite, if_neg he]
      unfold fsRead at ih ⊢
      rw [List.find?_cons_of_neg _ (by simpa using he)]
      exact ih

/-- In a file system without duplicate paths, at most one entry matches a
given path. -/
theorem count_le_one_of_nodup_keys (fs : PosFs) (k : String)
    (h : (fs.map Prod.fst).Nodup) :
    (fs.filter (fun e => e.1 = k)).length ≤ 1 := by
  induction fs with
  | nil => simp
  | cons e fs ih =>
    rw [List.map_cons, List.nodup_cons] at h
    by_cases he : e.1 = k
    · rw [List.filter_cons_of_pos (by simpa using he)]
      have hnone : fs.filter (fun e => e.1 = k) = [] := by
        apply List.filter_eq_nil_iff.mpr
        intro a ha
        simp only [decide_eq_true_eq]
        intro hak
        have hmem : a.1 ∈ fs.map Prod.fst := List.mem_map_of_mem Prod.fst ha
        rw [hak, ← he] at hmem
        exact h.1 hmem
      rw [hnone]
      simp
    · rw [List.filter_cons_of_neg (by simpa using he)]
      exact ih h.2

/-- Every tracker operation preserves the no-duplicate-file-paths
invariant. -/
theorem applyOp_nodup_keys (fs : PosFs) (op : TrackerOp)
    (h : (fs.map Prod.fst).Nodup) : ((applyOp fs op).map Prod.fst).Nodup := by
  cases op with
  | ai_open signal now => exact fsWrite_nodup_keys _ _ _ h
  | ai_close ticker close_price now =>
    dsimp only [applyOp]
    cases fsRead fs (posPath "ai" ticker) with
    | none => exact h
    | some p => exact fsWrite_nodup_keys _ _ _ h
  | human_confirm signal entry_price size via notes now =>
    exact fsWrite_nodup_keys _ _ _ h
  | human_skip signal via notes now => exact fsWrite_nodup_keys _ _ _ h
  | human_close ticker close_price via now =>
    dsimp only [applyOp]
    cases fsRead fs (posPath "human" ticker) with
    | none => exact h
    | some p => exact fsWrite_nodup_keys _ _ _ h
  | human_initiated ticker direction entry_price size via notes now =>
    exact fsWrite_nodup_keys _ _ _ h

/-- Any sequence of tracker operations from the empty directory keeps the
invariant. -/
theorem applyOps_nodup_keys (ops : List TrackerOp) :
    ((applyOps ops).map Prod.fst).Nodup := by
  suffices h : ∀ (fs : PosFs), (fs.map Prod.fst).Nodup →
      ((ops.foldl applyOp fs).map Prod.fst).Nodup by
    exact h [] (by simp)
  induction ops with
  | nil => intro fs h; simpa using h
  | cons op rest ih =>
    intro fs h
    rw [List.foldl_cons]
    exact ih _ (applyOp_nodup_keys fs op h)

/-- Claim C9.  For every book and ticker the tracker stores at most one
position record at any time: after any sequence of tracker operations
starting from an empty positions directory, at most one file matches
`positions/<book>/<ticker>.json`; and every position-creating operation
(`ai_open_position`, `human_confirm_position`, `human_skip_position`,
`human_initiated_trade`) writes that single file, silently overwriting
whatever position (open, closed, or skipped) was stored there — reading
the file after the operation yields exactly the newly created record,
regardless of the previous directory contents. -/
theorem at_most_one_position_file_per_book_ticker :
    (∀ (ops : List TrackerOp) (book ticker : String),
      ((applyOps ops).filter (fun e => e.1 = posPath book ticker)).length ≤ 1) ∧
    (∀ (fs : PosFs) (signal : Signal) (now : Nat),
      fsRead (applyOp fs (.ai_open signal now)) (posPath "ai" signal.ticker)
        = some (ai_open_position signal now)) ∧
    (∀ (fs : PosFs) (signal : Signal) (entry_price : ℚ) (size : Option ℚ)
        (via : String) (notes : Option String) (now : Nat),
      fsRead (applyOp fs (.human_confirm signal entry_price size via notes now))
          (posPath "human" signal.ticker)
        = some (human_confirm_position signal entry_price size via notes now)) ∧
    (∀ (fs : PosFs) (signal : Signal) (via : String) (notes : Option String) (now : Nat),
      fsRead (applyOp fs (.human_skip signal via notes now)) (posPath "human" signal.ticker)
        = some (human_skip_position signal via notes now)) ∧
    (∀ (fs : PosFs) (ticker direction : String) (entry_price : ℚ) (size : Option ℚ)
        (via : String) (notes : Option String) (now : Nat),
      fsRead (applyOp fs (.human_initiated ticker direction entry_price size via notes now))
          (posPath "human" ticker)
        = some (human_initiated_trade ticker direction entry_price size via notes now)) := by
  refine ⟨?_, ?_, ?_, ?_, ?_⟩
  · intro ops book ticker
    exact count_le_one_of_nodup_keys _ _ (applyOps_nodup_keys ops)
  · intro fs signal now
    exact fsWrite_read_same _ _ _
  · intro fs signal entry_price size via notes now
    exact fsWrite_read_same _ _ _
  · intro fs signal via notes now
    exact fsWrite_read_same _ _ _
  · intro fs ticker direction entry_price size via notes now
    exact fsWrite_read_same _ _ _

/-- Claim C10.  `_tool_confirm_trade` never fails on a ticker with no
stored `approved`/`delivered` signal: the outcome is always defined —
either a confirmation bound to `matching[-1]`, the last matching signal in
ascending filename order of the signals directory, or the silent fallback
to a user-initiated trade with direction "long" whose recorded position
carries no signal id; and the fallback branch is taken exactly when the
match list is empty. -/
theorem confirm_trade_binds_last_match_or_falls_back
    (signalsDir : List (String × SignalDoc)) (tickerArg : String)
    (entry_price : ℚ) (size : Option ℚ) (source : String) (now : Nat) :
    tool_confirm_trade signalsDir tickerArg entry_price size source now =
      (match (matchingSignals signalsDir (pyUpper tickerArg)).getLast? with
       | some s =>
         .confirmed (human_confirm_position s entry_price size source none now) s
       | none =>
         .user_initiated (human_initiated_trade (pyUpper tickerArg) "long"
           entry_price size source (some "User-initiated trade") now)) ∧
    (matchingSignals signalsDir (pyUpper tickerArg) = [] ↔
      (matchingSignals signalsDir (pyUpper tickerArg)).getLast? = none) ∧
    (human_initiated_trade (pyUpper tickerArg) "long" entry_price size source
        (some "User-initiated trade") now).signal_id = none ∧
    (human_initiated_trade (pyUpper tickerArg) "long" entry_price size source
        (some "User-initiated trade") now).direction = "long" ∧
    (human_initiated_trade (pyUpper tickerArg) "long" entry_price size source
        (some "User-initiated trade") now).status = "confirmed" := by
  refine ⟨rfl, ?_, rfl, rfl, rfl⟩
  exact (List.getLast?_eq_none_iff).symm

end OSF
